import Mathlib

/-!
# LedgerFlow backend — shallow embedding and verification

A shallow embedding of the authorization/session core of the LedgerFlow
multi-tenant project/CI metadata backend, translated from the JavaScript
services (`services/workspaces.js`, `services/projects.js`,
`services/ciRuns.js`, `services/github.js`, and the auth service), together
with theorems settling the specification claims.

Conventions of the embedding:
- The Prisma store is a `DB` structure of lists of rows; `findUnique` /
  `findFirst` become `List.find?` with the same predicates.
- `async` functions that may throw become functions into `Except Err _`;
  mutating functions also return the updated `DB` (an error leaves the
  store unchanged).
- Randomly generated values (ids, tokens) and the current time are passed
  in explicitly; SHA-256 / bcrypt are abstract function parameters since
  they live in external libraries, not in this repository.
- JavaScript truthiness on strings (`if (!x)`) is modelled by comparison
  with the empty string; absent-vs-present optional fields are `Option`.
-/

namespace LedgerFlow

/-- Duck-typed error objects `Object.assign(new Error(msg), { status })`. -/
structure Err where
  status : Nat
  msg : String
deriving DecidableEq, Repr

/-- Membership roles, Prisma enum `Role`. -/
inductive Role
  | OWNER
  | ADMIN
  | MAINTAINER
  | DEVELOPER
  | VIEWER
deriving DecidableEq, Repr

/-- `ROLE_ORDER` from `services/workspaces.js`:
OWNER 5 > ADMIN 4 > MAINTAINER 3 > DEVELOPER 2 > VIEWER 1. -/
def ROLE_ORDER : Role → Nat
  | .OWNER => 5
  | .ADMIN => 4
  | .MAINTAINER => 3
  | .DEVELOPER => 2
  | .VIEWER => 1

/-- CI run statuses, Prisma enum `CiStatus`. -/
inductive CiStatus
  | QUEUED
  | RUNNING
  | PASSED
  | FAILED
  | CANCELED
deriving DecidableEq, Repr

structure User where
  id : String
  email : String
  passwordHash : String
  name : Option String := none
  imageUrl : Option String := none
deriving DecidableEq, Repr

structure Session where
  id : String
  userId : String
  sessionToken : String
  refreshTokenHash : String
  userAgent : Option String := none
  ipAddress : Option String := none
  expiresAt : Nat
  revokedAt : Option Nat := none
deriving DecidableEq, Repr

structure Workspace where
  id : String
  slug : String
  name : String
  description : Option String := none
  ownerId : String
deriving DecidableEq, Repr

structure Membership where
  userId : String
  workspaceId : String
  role : Role
deriving DecidableEq, Repr

structure Project where
  id : String
  workspaceId : String
  name : String
  slug : String
  description : Option String := none
  defaultBranch : Option String := none
deriving DecidableEq, Repr

structure Permission where
  userId : String
  projectId : String
  canRead : Bool
  canWrite : Bool
  canExecute : Bool
  canAdmin : Bool
deriving DecidableEq, Repr

structure CiRun where
  id : String
  projectId : String
  environmentId : Option String := none
  status : CiStatus
  commitSha : Option String := none
  branch : Option String := none
  logsUrl : Option String := none
  startedAt : Nat
  finishedAt : Option Nat := none
  triggeredById : Option String := none
deriving DecidableEq, Repr

/-- The relational store: one list of rows per Prisma model used by the
claims (environments and repo links are not needed by any claim's data
flow beyond what the functions below read). -/
structure DB where
  users : List User := []
  workspaces : List Workspace := []
  memberships : List Membership := []
  projects : List Project := []
  permissions : List Permission := []
  ciRuns : List CiRun := []
  sessions : List Session := []
deriving DecidableEq, Repr

/-- JS truthiness for optional string values: `undefined`, `null` and `""`
are all falsy, so a present-but-empty string behaves like an absent one. -/
def truthy : Option String → Option String
  | some "" => none
  | x => x

/-! ## Role resolver (`requireWorkspaceRole`, services/workspaces.js) -/

/-- `requireWorkspaceRole(userId, workspaceId, requiredRole)`:
404 if the workspace does not exist, 403 if the user has no membership,
403 if the membership's `ROLE_ORDER` rank is below the required rank,
otherwise returns the membership row. -/
def requireWorkspaceRole (db : DB) (userId workspaceId : String)
    (requiredRole : Role) : Except Err Membership :=
  match db.workspaces.find? (fun w => w.id == workspaceId) with
  | none => .error ⟨404, "Workspace not found"⟩
  | some _ =>
    match db.memberships.find?
        (fun m => m.userId == userId && m.workspaceId == workspaceId) with
    | none => .error ⟨403, "Forbidden: not a workspace member"⟩
    | some membership =>
      if ROLE_ORDER membership.role < ROLE_ORDER requiredRole then
        .error ⟨403, "Forbidden: insufficient role"⟩
      else
        .ok membership

/-! ## Permission resolver (`enforceProjectPermission`, services/workspaces.js) -/

/-- The four capability strings accepted by `enforceProjectPermission`
(the JS `checks` table; an unknown string would yield `undefined` and be
rejected, so only the four valid keys are modelled). -/
inductive Capability
  | read
  | write
  | execute
  | admin
deriving DecidableEq, Repr

/-- The `checks` table of `enforceProjectPermission`: each capability maps
to `p?.flag === true || p?.canAdmin === true` except `admin`, which is
exactly `p?.canAdmin === true`; a missing row (`p` undefined) grants
nothing. -/
def capCheck (required : Capability) : Option Permission → Bool
  | none => false
  | some p =>
    match required with
    | .read => p.canRead || p.canAdmin
    | .write => p.canWrite || p.canAdmin
    | .execute => p.canExecute || p.canAdmin
    | .admin => p.canAdmin

/-- `enforceProjectPermission(userId, workspaceId, projectId, required)`:
requires workspace VIEWER membership, 404 if the project is not in the
workspace, then consults only the per-project `Permission` row via
`capCheck`; 403 when the check fails. -/
def enforceProjectPermission (db : DB) (userId workspaceId projectId : String)
    (required : Capability) : Except Err Bool := do
  let _ ← requireWorkspaceRole db userId workspaceId .VIEWER
  match db.projects.find?
      (fun p => p.id == projectId && p.workspaceId == workspaceId) with
  | none => .error ⟨404, "Project not found"⟩
  | some _ =>
    let perm := db.permissions.find?
      (fun q => q.userId == userId && q.projectId == projectId)
    if capCheck required perm then
      .ok true
    else
      .error ⟨403, "Forbidden"⟩

/-! ## Role mutations (`setWorkspaceRole`, `inviteMember`) -/

/-- `setWorkspaceRole(currentUserId, workspaceId, { userId, role })` from
the permissions service: 400 on missing userId, ADMIN+ required for the
actor, 404 if the target has no membership, 403 if the transition involves
OWNER (assigning it or changing an existing OWNER) and the actor is not
OWNER, else updates the target membership's role. -/
def setWorkspaceRole (db : DB) (currentUserId workspaceId userId : String)
    (role : Role) : Except Err (Membership × DB) :=
  if userId == "" then
    .error ⟨400, "userId and role are required"⟩
  else do
    let acting ← requireWorkspaceRole db currentUserId workspaceId .ADMIN
    match db.memberships.find?
        (fun m => m.userId == userId && m.workspaceId == workspaceId) with
    | none => .error ⟨404, "Target membership not found"⟩
    | some target =>
      if (role == .OWNER || target.role == .OWNER) && !(acting.role == .OWNER) then
        .error ⟨403, "Forbidden: only OWNER can change OWNER roles"⟩
      else
        let updated := { target with role := role }
        let db' := { db with
          memberships := db.memberships.map (fun m =>
            if m.userId == userId && m.workspaceId == workspaceId then
              { m with role := role }
            else m) }
        .ok (updated, db')

/-- Result of `inviteMember`: a mock invitation email for unknown
addresses, or the upserted membership for an existing user. -/
inductive InviteOutcome
  | invited (message : String)
  | added (membership : Membership)
deriving DecidableEq, Repr

/-- `inviteMember(userId, workspaceId, { email, role })` from
services/workspaces.js: actor must be ADMIN+, 400 on missing email; if no
user has the email, a mock invite is returned; otherwise the membership is
upserted with the provided role — including `OWNER`, with no check on the
actor beyond ADMIN. (The `!ROLE_ORDER[role]` validity check is vacuous for
the typed `Role` values modelled here.) -/
def inviteMember (db : DB) (currentUserId workspaceId email : String)
    (role : Role) : Except Err (InviteOutcome × DB) := do
  let _ ← requireWorkspaceRole db currentUserId workspaceId .ADMIN
  if email == "" then
    .error ⟨400, "email is required"⟩
  else
    match db.users.find? (fun u => u.email == email) with
    | none =>
      .ok (.invited ("Invitation email sent to " ++ email ++ " (mock)."), db)
    | some user =>
      match db.memberships.find?
          (fun m => m.userId == user.id && m.workspaceId == workspaceId) with
      | some target =>
        let updated := { target with role := role }
        let db' := { db with
          memberships := db.memberships.map (fun m =>
            if m.userId == user.id && m.workspaceId == workspaceId then
              { m with role := role }
            else m) }
        .ok (.added updated, db')
      | none =>
        let created : Membership := ⟨user.id, workspaceId, role⟩
        .ok (.added created,
          { db with memberships := db.memberships ++ [created] })

/-! ## Workspace creation (`createWorkspace`, services/workspaces.js) -/

/-- `createWorkspace(userId, { name, slug, description })`: 400 on missing
name/slug, 409 on duplicate slug, then a `prisma.$transaction` that
creates the workspace row and the creator's OWNER membership atomically.
The transaction's all-or-nothing semantics is made explicit by the
`txFails` oracle: any failure inside the transaction leaves the store
untouched. The error branches return the unchanged input store. -/
def createWorkspace (db : DB) (userId name slug : String)
    (description : Option String) (newWsId : String) (txFails : Bool) :
    Except Err Workspace × DB :=
  if name == "" || slug == "" then
    (.error ⟨400, "name and slug are required"⟩, db)
  else
    match db.workspaces.find? (fun w => w.slug == slug) with
    | some _ => (.error ⟨409, "Workspace slug already exists"⟩, db)
    | none =>
      if txFails then
        (.error ⟨500, "transaction rolled back"⟩, db)
      else
        let ws : Workspace :=
          { id := newWsId, slug := slug, name := name,
            description := truthy description, ownerId := userId }
        let mem : Membership := ⟨userId, newWsId, .OWNER⟩
        (.ok ws,
          { db with
            workspaces := db.workspaces ++ [ws],
            memberships := db.memberships ++ [mem] })

/-! ## Projects service (services/projects.js) -/

/-- `getProject(userId, workspaceId, projectId)`: VIEWER+ required, then
`findFirst({ where: { id: projectId, workspaceId } })` — the lookup is
scoped to the named workspace, so a cross-tenant project id yields 404. -/
def getProject (db : DB) (userId workspaceId projectId : String) :
    Except Err Project := do
  let _ ← requireWorkspaceRole db userId workspaceId .VIEWER
  match db.projects.find?
      (fun p => p.id == projectId && p.workspaceId == workspaceId) with
  | none => .error ⟨404, "Project not found"⟩
  | some project => .ok project

/-- Partial update passed to `updateProject`; `none` models an absent
(`undefined`) field, which the JS spread skips. -/
structure ProjectPatch where
  name : Option String := none
  slug : Option String := none
  description : Option String := none
  defaultBranch : Option String := none
deriving DecidableEq, Repr

/-- `updateProject(userId, workspaceId, projectId, patch)`: MAINTAINER+
required on the *named* workspace; if a truthy slug is supplied, 409 when
another project of that workspace already uses it; then
`prisma.project.update({ where: { id: projectId } })` — the update is keyed
by project id alone, with no workspace filter, so it also hits projects of
other workspaces. A missing id makes Prisma's update throw (surfaced as a
generic 500 by the controller). -/
def updateProject (db : DB) (userId workspaceId projectId : String)
    (patch : ProjectPatch) : Except Err (Project × DB) := do
  let _ ← requireWorkspaceRole db userId workspaceId .MAINTAINER
  match truthy patch.slug with
  | some s =>
    match db.projects.find?
        (fun p => p.workspaceId == workspaceId && p.slug == s) with
    | some existing =>
      if !(existing.id == projectId) then
        .error ⟨409, "Project slug already exists in this workspace"⟩
      else pure ()
    | none => pure ()
  | none => pure ()
  match db.projects.find? (fun p => p.id == projectId) with
  | none => .error ⟨500, "Record to update not found"⟩
  | some pr =>
    let updated : Project :=
      { pr with
        name := patch.name.getD pr.name,
        slug := patch.slug.getD pr.slug,
        description := match patch.description with
          | some d => some d
          | none => pr.description,
        defaultBranch := match patch.defaultBranch with
          | some b => some b
          | none => pr.defaultBranch }
    .ok (updated,
      { db with projects := db.projects.map (fun p =>
          if p.id == projectId then updated else p) })

/-! ## CI runs service (services/ciRuns.js) -/

/-- Insert a run into a list already sorted by `startedAt` descending. -/
def insertByStartedAtDesc (r : CiRun) : List CiRun → List CiRun
  | [] => [r]
  | x :: xs =>
    if r.startedAt ≤ x.startedAt then x :: insertByStartedAtDesc r xs
    else r :: x :: xs

/-- `orderBy: [{ startedAt: 'desc' }]` as a sort on the row list. -/
def sortByStartedAtDesc : List CiRun → List CiRun
  | [] => []
  | x :: xs => insertByStartedAtDesc x (sortByStartedAtDesc xs)

/-- A numeric-ish value arriving from the query string, as seen by
`Number(x)`: absent (`undefined`), a non-numeric string (`NaN`), or a
number. -/
inductive JsNum
  | absent
  | nonNumeric
  | num (n : Int)
deriving DecidableEq, Repr

/-- `Number(x) || d`: `NaN` (absent or non-numeric input) and `0` are
falsy, every other number is kept. -/
def jsNumOr (x : JsNum) (d : Int) : Int :=
  match x with
  | .absent => d
  | .nonNumeric => d
  | .num n => if n == 0 then d else n

/-- `take: Math.min(Number(limit) || 50, 200)` from `listCiRuns`. -/
def effectiveTake (limit : JsNum) : Int :=
  min (jsNumOr limit 50) 200

/-- `skip: Number(offset) || 0` from `listCiRuns`. -/
def effectiveSkip (offset : JsNum) : Int :=
  jsNumOr offset 0

/-- Prisma `take`: nonnegative takes the first `t` rows, negative takes
the last `|t|` rows of the ordered result. -/
def jsTake {α : Type} (t : Int) (xs : List α) : List α :=
  if 0 ≤ t then xs.take t.toNat
  else xs.drop (xs.length - t.natAbs)

/-- The optional filters of `listCiRuns`. -/
structure CiRunQuery where
  environmentId : Option String := none
  status : Option CiStatus := none
  branch : Option String := none
  limit : JsNum := .absent
  offset : JsNum := .absent
deriving Repr

/-- The `where` clause built by `listCiRuns`: project id plus any truthy
optional filters. -/
def ciRunWhere (projectId : String) (q : CiRunQuery) (r : CiRun) : Bool :=
  r.projectId == projectId
  && (match truthy q.environmentId with
      | some e => r.environmentId == some e
      | none => true)
  && (match q.status with
      | some s => r.status == s
      | none => true)
  && (match truthy q.branch with
      | some b => r.branch == some b
      | none => true)

/-- `listCiRuns(userId, workspaceId, projectId, query)`: VIEWER+ required,
404 unless the project belongs to the workspace (`ensureProjectInWorkspace`),
then a count plus a page of runs ordered by `startedAt` descending with
Prisma `take`/`skip` computed from the query. Returns `(total, runs)`. -/
def listCiRuns (db : DB) (userId workspaceId projectId : String)
    (q : CiRunQuery) : Except Err (Nat × List CiRun) := do
  let _ ← requireWorkspaceRole db userId workspaceId .VIEWER
  match db.projects.find?
      (fun p => p.id == projectId && p.workspaceId == workspaceId) with
  | none => .error ⟨404, "Project not found"⟩
  | some _ =>
    let all := db.ciRuns.filter (ciRunWhere projectId q)
    let total := all.length
    let page := jsTake (effectiveTake q.limit)
      ((sortByStartedAtDesc all).drop (effectiveSkip q.offset).toNat)
    .ok (total, page)

/-- `getLatestCiStatus(userId, workspaceId, projectId, { branch,
environmentId })`: VIEWER+ on the *named* workspace, then
`findFirst` over CI runs by project id and truthy filters, ordered by
`startedAt` descending — note there is no `ensureProjectInWorkspace` call
and no `project: { workspaceId }` clause, so the project may belong to any
workspace. Returns the latest run or `none`. -/
def getLatestCiStatus (db : DB) (userId workspaceId projectId : String)
    (branch environmentId : Option String) : Except Err (Option CiRun) := do
  let _ ← requireWorkspaceRole db userId workspaceId .VIEWER
  let matching := db.ciRuns.filter (fun r =>
    r.projectId == projectId
    && (match truthy branch with
        | some b => r.branch == some b
        | none => true)
    && (match truthy environmentId with
        | some e => r.environmentId == some e
        | none => true))
  .ok (sortByStartedAtDesc matching).head?

/-! ## Webhook signature verifier (services/github.js) -/

/-- Result of `verifyGitHubSignature`. -/
structure VerifyResult where
  ok : Bool
  reason : String
deriving DecidableEq, Repr

/-- `verifyGitHubSignature(secret, payloadBody, signatureHeader)`,
parameterized by the HMAC-SHA256 hex function (an external crypto
primitive). An empty/absent secret skips verification and accepts;
otherwise the expected digest is `'sha256=' + hmac`, the absent header
defaults to `''`, and `crypto.timingSafeEqual` throws on length mismatch
(caught as a verification error) and otherwise compares byte-wise. -/
def verifyGitHubSignature (hmacHex : String → String → String)
    (secret payloadBody : String) (signatureHeader : Option String) :
    VerifyResult :=
  if secret == "" then
    { ok := true,
      reason := "No secret configured - skipping verification (dev stub)" }
  else
    let digest := "sha256=" ++ hmacHex secret payloadBody
    let provided := signatureHeader.getD ""
    if digest.length ≠ provided.length then
      { ok := false, reason := "Verification error" }
    else if digest == provided then
      { ok := true, reason := "Verified" }
    else
      { ok := false, reason := "Signature mismatch" }

/-- `link.webhookSecret || process.env.GITHUB_WEBHOOK_SECRET || ''` from
`handleWebhook`: the per-project secret, else the process-wide fallback,
else the empty string (with JS falsiness collapsing absent and `""`). -/
def resolveWebhookSecret (linkSecret envSecret : Option String) : String :=
  match truthy linkSecret with
  | some s => s
  | none =>
    match truthy envSecret with
    | some s => s
    | none => ""

/-! ## Auth service (sessions, tokens) -/

/-- `ACCESS_TOKEN_TTL_SEC = 15 * 60`. -/
def ACCESS_TOKEN_TTL_SEC : Nat := 15 * 60

/-- `REFRESH_TOKEN_TTL_DAYS = 30`. -/
def REFRESH_TOKEN_TTL_DAYS : Nat := 30

/-- `daysFromNow(days)` with `Date.now()` passed explicitly (ms). -/
def daysFromNow (now : Nat) (days : Nat) : Nat :=
  now + days * 24 * 60 * 60 * 1000

/-- The claims embedded in the JWT produced by `signAccessToken`
(payload `{ sub, email }` plus the fixed options). -/
structure AccessToken where
  sub : String
  email : String
  issuer : String
  audience : String
  expiresInSec : Nat
deriving DecidableEq, Repr

/-- `signAccessToken(user)`: subject is the user id, email claim, fixed
issuer/audience, 15-minute expiry. -/
def signAccessToken (u : User) : AccessToken :=
  { sub := u.id, email := u.email,
    issuer := "ledgerflow-backend", audience := "ledgerflow-clients",
    expiresInSec := ACCESS_TOKEN_TTL_SEC }

/-- The random values drawn by one auth operation
(`crypto.randomBytes(...)` outputs and store-generated ids), passed in
explicitly. -/
structure Fresh where
  newUserId : String := ""
  newSessionId : String := ""
  sessionToken : String := ""
  refreshToken : String := ""
deriving Repr

/-- `{ userAgent, ipAddress }` request context. -/
structure DeviceCtx where
  userAgent : Option String := none
  ipAddress : Option String := none
deriving Repr

/-- `createSessionForUser(userId, { userAgent, ipAddress })`: persists a
session whose `refreshTokenHash` is the hash of the freshly generated
refresh token, with a 30-day expiry, and returns the one-time plaintext
refresh token. `hashT` abstracts `hashToken` (SHA-256 hex). -/
def createSessionForUser (hashT : String → String) (db : DB) (now : Nat)
    (fr : Fresh) (userId : String) (ctx : DeviceCtx) :
    Session × String × DB :=
  let s : Session :=
    { id := fr.newSessionId, userId := userId,
      sessionToken := fr.sessionToken,
      refreshTokenHash := hashT fr.refreshToken,
      userAgent := truthy ctx.userAgent,
      ipAddress := truthy ctx.ipAddress,
      expiresAt := daysFromNow now REFRESH_TOKEN_TTL_DAYS,
      revokedAt := none }
  (s, fr.refreshToken, { db with sessions := db.sessions ++ [s] })

/-- What `signup`/`login`/`refresh` return: the user profile projection,
the signed access token, the plaintext refresh token, the session id. -/
structure AuthResult where
  userId : String
  email : String
  accessToken : AccessToken
  refreshToken : String
  sessionId : String
deriving Repr

/-- `signup({ email, password, name }, context)`: 400 on missing
email/password, 409 on duplicate email, then creates the user (password
bcrypt-hashed, abstracted as `bhash`), signs an access token for it and
persists one session via `createSessionForUser`. -/
def signup (hashT bhash : String → String) (db : DB) (now : Nat)
    (fr : Fresh) (email password : String) (name : Option String)
    (ctx : DeviceCtx) : Except Err AuthResult × DB :=
  if email == "" || password == "" then
    (.error ⟨400, "Email and password are required"⟩, db)
  else
    match db.users.find? (fun u => u.email == email) with
    | some _ => (.error ⟨409, "Email already in use"⟩, db)
    | none =>
      let user : User :=
        { id := fr.newUserId, email := email,
          passwordHash := bhash password, name := truthy name,
          imageUrl := none }
      let db1 := { db with users := db.users ++ [user] }
      let accessToken := signAccessToken user
      let (session, refreshToken, db2) :=
        createSessionForUser hashT db1 now fr user.id ctx
      (.ok { userId := user.id, email := user.email,
             accessToken := accessToken, refreshToken := refreshToken,
             sessionId := session.id }, db2)

/-- The `findFirst` predicate of `refresh`: optional session-token
discriminator, matching refresh-token hash, not revoked, not expired. -/
def refreshMatch (now : Nat) (sessionToken : Option String)
    (refreshHash : String) (s : Session) : Bool :=
  (match truthy sessionToken with
   | some t => s.sessionToken == t
   | none => true)
  && s.refreshTokenHash == refreshHash
  && s.revokedAt == none
  && decide (now < s.expiresAt)

/-- `context.userAgent || session.userAgent`-style fallback. -/
def jsOrOpt (a b : Option String) : Option String :=
  match truthy a with
  | some s => some s
  | none => b

/-- `refresh({ sessionToken, refreshToken }, context)`: 400 on missing
refresh token; finds the first active session whose stored hash matches
`hashToken(refreshToken)` (401 if none, or if its user is missing);
rotates that session in place — fresh refresh-token hash, expiry extended
by 30 days, device metadata refreshed — and returns new tokens. -/
def refresh (hashT : String → String) (db : DB) (now : Nat) (fr : Fresh)
    (sessionToken : Option String) (refreshToken : String)
    (ctx : DeviceCtx) : Except Err AuthResult × DB :=
  if refreshToken == "" then
    (.error ⟨400, "refreshToken is required"⟩, db)
  else
    match db.sessions.find? (refreshMatch now sessionToken (hashT refreshToken)) with
    | none => (.error ⟨401, "Invalid or expired refresh token"⟩, db)
    | some session =>
      match db.users.find? (fun u => u.id == session.userId) with
      | none => (.error ⟨401, "Invalid or expired refresh token"⟩, db)
      | some user =>
        (.ok { userId := user.id, email := user.email,
               accessToken := signAccessToken user,
               refreshToken := fr.refreshToken,
               sessionId := session.id },
         { db with
           sessions := db.sessions.map (fun s =>
             if s.id == session.id then
               { s with
                 refreshTokenHash := hashT fr.refreshToken,
                 expiresAt := daysFromNow now REFRESH_TOKEN_TTL_DAYS,
                 userAgent := jsOrOpt ctx.userAgent s.userAgent,
                 ipAddress := jsOrOpt ctx.ipAddress s.ipAddress }
             else s) })

/-! ## Shared helper lemmas -/

/-- Every role rank is at least VIEWER's rank, so the VIEWER floor of the
permission checks never rejects an existing member. -/
lemma ROLE_ORDER_pos (r : Role) : 1 ≤ ROLE_ORDER r := by
  cases r <;> simp [ROLE_ORDER]

/-- `requireWorkspaceRole` at the VIEWER floor returns the membership of
any member of an existing workspace, whatever their role. -/
lemma requireWorkspaceRole_viewer (db : DB) (userId workspaceId : String)
    (m : Membership)
    (hws : (db.workspaces.find? (fun w => w.id == workspaceId)).isSome)
    (hmem : db.memberships.find?
        (fun x => x.userId == userId && x.workspaceId == workspaceId) = some m) :
    requireWorkspaceRole db userId workspaceId .VIEWER = .ok m := by
  obtain ⟨w, hw⟩ := Option.isSome_iff_exists.mp hws
  unfold requireWorkspaceRole
  rw [hw, hmem]
  have h1 : ¬ (ROLE_ORDER m.role < ROLE_ORDER Role.VIEWER) := by
    cases m.role <;> simp [ROLE_ORDER]
  show (if ROLE_ORDER m.role < ROLE_ORDER Role.VIEWER then
      Except.error (Err.mk 403 "Forbidden: insufficient role")
    else Except.ok m) = Except.ok m
  exact if_neg h1

/-- Characterization of `enforceProjectPermission` for a member of an
existing workspace and a project inside it: the outcome depends only on
the `Permission` row via `capCheck` — the member's workspace role plays no
part beyond the VIEWER tenancy floor. -/
lemma enforceProjectPermission_eq (db : DB)
    (userId workspaceId projectId : String) (required : Capability)
    (m : Membership)
    (hws : (db.workspaces.find? (fun w => w.id == workspaceId)).isSome)
    (hmem : db.memberships.find?
        (fun x => x.userId == userId && x.workspaceId == workspaceId) = some m)
    (hproj : (db.projects.find?
        (fun p => p.id == projectId && p.workspaceId == workspaceId)).isSome) :
    enforceProjectPermission db userId workspaceId projectId required =
      (if capCheck required (db.permissions.find?
          (fun q => q.userId == userId && q.projectId == projectId)) then
        .ok true
      else
        .error ⟨403, "Forbidden"⟩) := by
  obtain ⟨pr, hpr⟩ := Option.isSome_iff_exists.mp hproj
  unfold enforceProjectPermission
  rw [requireWorkspaceRole_viewer db userId workspaceId m hws hmem]
  simp only [bind, Except.bind]
  rw [hpr]

/-! ## Claim C3 — role hierarchy in `requireWorkspaceRole` -/

/-- C3: assuming the workspace exists and the user holds a membership with
role `ra` in it, `requireWorkspaceRole(userId, workspaceId, rb)` succeeds
returning that membership iff `rank(ra) ≥ rank(rb)` under
OWNER=5 > ADMIN=4 > MAINTAINER=3 > DEVELOPER=2 > VIEWER=1, and fails with
the 403 insufficient-role error when `rank(ra) < rank(rb)`. -/
theorem requireWorkspaceRole_rank_iff (db : DB) (userId workspaceId : String)
    (ra rb : Role) (m : Membership)
    (hws : (db.workspaces.find? (fun w => w.id == workspaceId)).isSome)
    (hmem : db.memberships.find?
        (fun x => x.userId == userId && x.workspaceId == workspaceId) = some m)
    (hrole : m.role = ra) :
    (requireWorkspaceRole db userId workspaceId rb = .ok m ↔
      ROLE_ORDER rb ≤ ROLE_ORDER ra)
    ∧ (ROLE_ORDER ra < ROLE_ORDER rb →
        requireWorkspaceRole db userId workspaceId rb =
          .error ⟨403, "Forbidden: insufficient role"⟩) := by
  obtain ⟨w, hw⟩ := Option.isSome_iff_exists.mp hws
  subst hrole
  have hred : requireWorkspaceRole db userId workspaceId rb =
      (if ROLE_ORDER m.role < ROLE_ORDER rb then
        Except.error (Err.mk 403 "Forbidden: insufficient role")
      else Except.ok m) := by
    unfold requireWorkspaceRole
    rw [hw, hmem]
  rw [hred]
  constructor
  · by_cases h : ROLE_ORDER m.role < ROLE_ORDER rb
    · rw [if_pos h]
      constructor
      · intro hcontra
        exact absurd hcontra (by simp)
      · intro hle
        omega
    · rw [if_neg h]
      constructor
      · intro _
        omega
      · intro _
        rfl
  · intro h
    rw [if_pos h]

/-- C3 witness: a DEVELOPER member of an existing workspace passes the
VIEWER check (rank 2 ≥ 1) and fails the MAINTAINER check (rank 2 < 3). -/
theorem requireWorkspaceRole_rank_iff_witness :
    (requireWorkspaceRole
        { workspaces := [⟨"w1", "acme", "Acme", none, "u1"⟩],
          memberships := [⟨"u1", "w1", .DEVELOPER⟩] }
        "u1" "w1" .VIEWER = .ok ⟨"u1", "w1", .DEVELOPER⟩)
    ∧ (requireWorkspaceRole
        { workspaces := [⟨"w1", "acme", "Acme", none, "u1"⟩],
          memberships := [⟨"u1", "w1", .DEVELOPER⟩] }
        "u1" "w1" .MAINTAINER = .error ⟨403, "Forbidden: insufficient role"⟩) := by
  constructor
  · exact (requireWorkspaceRole_rank_iff
      { workspaces := [⟨"w1", "acme", "Acme", none, "u1"⟩],
        memberships := [⟨"u1", "w1", .DEVELOPER⟩] }
      "u1" "w1" .DEVELOPER .VIEWER ⟨"u1", "w1", .DEVELOPER⟩
      (by decide) (by decide) rfl).1.mpr (by decide)
  · exact (requireWorkspaceRole_rank_iff
      { workspaces := [⟨"w1", "acme", "Acme", none, "u1"⟩],
        memberships := [⟨"u1", "w1", .DEVELOPER⟩] }
      "u1" "w1" .DEVELOPER .MAINTAINER ⟨"u1", "w1", .DEVELOPER⟩
      (by decide) (by decide) rfl).2 (by decide)

/-! ## Claim C1 — `enforceProjectPermission` has no workspace-ADMIN tier -/

/-- Store for C1: a workspace ADMIN (`u-admin`) with no `Permission` row
on project `p1` of their workspace `w1`. -/
def dbAdminNoPerm : DB :=
  { users := [⟨"u-admin", "admin@x.com", "h", none, none⟩],
    workspaces := [⟨"w1", "acme", "Acme", none, "u-admin"⟩],
    memberships := [⟨"u-admin", "w1", .ADMIN⟩],
    projects := [⟨"p1", "w1", "Proj", "proj", none, none⟩] }

/-- C1 counterexample: the claim says a workspace ADMIN with no per-project
`Permission` row is authorized by `enforceProjectPermission` for every
required capability; on the code, the ADMIN is rejected with 403 for all
four capabilities, because the function checks only the `Permission` row
after the VIEWER tenancy floor. -/
theorem enforce_admin_without_row_rejected :
    enforceProjectPermission dbAdminNoPerm "u-admin" "w1" "p1" .read =
      .error ⟨403, "Forbidden"⟩
    ∧ enforceProjectPermission dbAdminNoPerm "u-admin" "w1" "p1" .write =
      .error ⟨403, "Forbidden"⟩
    ∧ enforceProjectPermission dbAdminNoPerm "u-admin" "w1" "p1" .execute =
      .error ⟨403, "Forbidden"⟩
    ∧ enforceProjectPermission dbAdminNoPerm "u-admin" "w1" "p1" .admin =
      .error ⟨403, "Forbidden"⟩ := by
  refine ⟨rfl, rfl, rfl, rfl⟩

/-- C1 amended: `enforceProjectPermission` implements no workspace-role
tier. For a member of an existing workspace (any role, ADMIN and OWNER
included) and a project inside that workspace, the outcome is decided
solely by the per-project `Permission` row through `capCheck`; in
particular a workspace ADMIN with no row fails FORBIDDEN. -/
theorem enforceProjectPermission_no_admin_tier (db : DB)
    (userId workspaceId projectId : String) (required : Capability)
    (m : Membership)
    (hws : (db.workspaces.find? (fun w => w.id == workspaceId)).isSome)
    (hmem : db.memberships.find?
        (fun x => x.userId == userId && x.workspaceId == workspaceId) = some m)
    (hproj : (db.projects.find?
        (fun p => p.id == projectId && p.workspaceId == workspaceId)).isSome) :
    enforceProjectPermission db userId workspaceId projectId required =
      (if capCheck required (db.permissions.find?
          (fun q => q.userId == userId && q.projectId == projectId)) then
        .ok true
      else
        .error ⟨403, "Forbidden"⟩) :=
  enforceProjectPermission_eq db userId workspaceId projectId required m
    hws hmem hproj

/-- C1 amended witness: instantiated for the ADMIN with no `Permission`
row, whose `capCheck` is false, so the check evaluates to FORBIDDEN. -/
theorem enforceProjectPermission_no_admin_tier_witness :
    enforceProjectPermission dbAdminNoPerm "u-admin" "w1" "p1" .write =
      (if capCheck .write (dbAdminNoPerm.permissions.find?
          (fun q => q.userId == "u-admin" && q.projectId == "p1")) then
        .ok true
      else
        .error ⟨403, "Forbidden"⟩) :=
  enforceProjectPermission_no_admin_tier dbAdminNoPerm "u-admin" "w1" "p1"
    .write ⟨"u-admin", "w1", .ADMIN⟩ (by decide) (by decide) (by decide)

/-! ## Claim C6 — capability-flag semantics of `enforceProjectPermission` -/

/-- C6: for a workspace member (at least VIEWER, i.e. any role) with a
`Permission` row on a project of the workspace: if the row has only
`canWrite` set, `enforceProjectPermission` grants `write` and rejects
`read` with FORBIDDEN; if the row has `canAdmin` set, it grants all four
capabilities. -/
theorem enforce_capability_flags (db : DB)
    (userId workspaceId projectId : String) (m : Membership) (q : Permission)
    (hws : (db.workspaces.find? (fun w => w.id == workspaceId)).isSome)
    (hmem : db.memberships.find?
        (fun x => x.userId == userId && x.workspaceId == workspaceId) = some m)
    (hproj : (db.projects.find?
        (fun p => p.id == projectId && p.workspaceId == workspaceId)).isSome)
    (hperm : db.permissions.find?
        (fun x => x.userId == userId && x.projectId == projectId) = some q) :
    ((q.canRead = false ∧ q.canWrite = true ∧ q.canExecute = false ∧
        q.canAdmin = false) →
      enforceProjectPermission db userId workspaceId projectId .write =
        .ok true
      ∧ enforceProjectPermission db userId workspaceId projectId .read =
        .error ⟨403, "Forbidden"⟩)
    ∧ (q.canAdmin = true →
      enforceProjectPermission db userId workspaceId projectId .read =
        .ok true
      ∧ enforceProjectPermission db userId workspaceId projectId .write =
        .ok true
      ∧ enforceProjectPermission db userId workspaceId projectId .execute =
        .ok true
      ∧ enforceProjectPermission db userId workspaceId projectId .admin =
        .ok true) := by
  have hr := fun c =>
    enforceProjectPermission_eq db userId workspaceId projectId c m
      hws hmem hproj
  constructor
  · rintro ⟨h1, h2, h3, h4⟩
    constructor
    · rw [hr .write, hperm]
      simp [capCheck, h2]
    · rw [hr .read, hperm]
      simp [capCheck, h1, h4]
  · intro ha
    refine ⟨?_, ?_, ?_, ?_⟩ <;>
      first
        | (rw [hr .read, hperm]; simp [capCheck, ha])
        | (rw [hr .write, hperm]; simp [capCheck, ha])
        | (rw [hr .execute, hperm]; simp [capCheck, ha])
        | (rw [hr .admin, hperm]; simp [capCheck, ha])

/-- Store for the C6 witness: two VIEWER members of workspace `w1`;
`u-w` holds only `canWrite` on project `p1` and `u-a` holds only
`canAdmin`. -/
def dbFlags : DB :=
  { users := [⟨"u-w", "w@x.com", "h", none, none⟩,
              ⟨"u-a", "a@x.com", "h", none, none⟩],
    workspaces := [⟨"w1", "acme", "Acme", none, "u-w"⟩],
    memberships := [⟨"u-w", "w1", .VIEWER⟩, ⟨"u-a", "w1", .VIEWER⟩],
    projects := [⟨"p1", "w1", "Proj", "proj", none, none⟩],
    permissions := [⟨"u-w", "p1", false, true, false, false⟩,
                    ⟨"u-a", "p1", false, false, false, true⟩] }

/-- C6 witness: on `dbFlags`, the write-only member gets `write` but not
`read`, and the canAdmin-only member gets `admin` (and `read`). -/
theorem enforce_capability_flags_witness :
    (enforceProjectPermission dbFlags "u-w" "w1" "p1" .write = .ok true
      ∧ enforceProjectPermission dbFlags "u-w" "w1" "p1" .read =
        .error ⟨403, "Forbidden"⟩)
    ∧ (enforceProjectPermission dbFlags "u-a" "w1" "p1" .read = .ok true
      ∧ enforceProjectPermission dbFlags "u-a" "w1" "p1" .admin = .ok true) := by
  constructor
  · exact (enforce_capability_flags dbFlags "u-w" "w1" "p1"
      ⟨"u-w", "w1", .VIEWER⟩ ⟨"u-w", "p1", false, true, false, false⟩
      (by decide) (by decide) (by decide) (by decide)).1
      ⟨rfl, rfl, rfl, rfl⟩
  · have h := (enforce_capability_flags dbFlags "u-a" "w1" "p1"
      ⟨"u-a", "w1", .VIEWER⟩ ⟨"u-a", "p1", false, false, false, true⟩
      (by decide) (by decide) (by decide) (by decide)).2 rfl
    exact ⟨h.1, h.2.2.2⟩

/-! ## Claim C8 — `createWorkspace` is all-or-nothing -/

/-- C8: `createWorkspace` is atomic. On success both the workspace row and
the creator's OWNER membership for it are in the resulting store; on any
error (validation, duplicate slug, or a failure inside the transaction)
the store is unchanged. -/
theorem createWorkspace_atomic (db : DB) (userId name slug : String)
    (description : Option String) (newWsId : String) (txFails : Bool) :
    (∀ ws db',
      createWorkspace db userId name slug description newWsId txFails =
        (.ok ws, db') →
      ws ∈ db'.workspaces
      ∧ ∃ mem, mem ∈ db'.memberships ∧ mem.userId = userId
          ∧ mem.workspaceId = ws.id ∧ mem.role = .OWNER)
    ∧ (∀ e db',
      createWorkspace db userId name slug description newWsId txFails =
        (.error e, db') →
      db' = db) := by
  constructor
  · intro ws db' h
    unfold createWorkspace at h
    split at h
    · simp at h
    · split at h
      · simp at h
      · split at h
        · simp at h
        · simp only [Prod.mk.injEq, Except.ok.injEq] at h
          obtain ⟨hws, hdb⟩ := h
          subst hws
          subst hdb
          refine ⟨List.mem_append_right _ (List.mem_singleton_self _),
            ⟨userId, newWsId, .OWNER⟩,
            List.mem_append_right _ (List.mem_singleton_self _),
            rfl, rfl, rfl⟩
  · intro e db' h
    unfold createWorkspace at h
    split at h
    · simp only [Prod.mk.injEq] at h
      exact h.2.symm
    · split at h
      · simp only [Prod.mk.injEq] at h
        exact h.2.symm
      · split at h
        · simp only [Prod.mk.injEq] at h
          exact h.2.symm
        · simp at h

/-- C8 witness: a concrete successful creation, with the created workspace
and its OWNER membership exhibited in the final store. -/
theorem createWorkspace_atomic_witness :
    ⟨"w1", "acme", "Acme", none, "u1"⟩ ∈
      (createWorkspace { users := [⟨"u1", "a@x.com", "h", none, none⟩] }
        "u1" "Acme" "acme" none "w1" false).2.workspaces
    ∧ ∃ mem, mem ∈
        (createWorkspace { users := [⟨"u1", "a@x.com", "h", none, none⟩] }
          "u1" "Acme" "acme" none "w1" false).2.memberships
        ∧ mem.userId = "u1" ∧ mem.workspaceId = "w1" ∧ mem.role = .OWNER := by
  have h := (createWorkspace_atomic
    { users := [⟨"u1", "a@x.com", "h", none, none⟩] }
    "u1" "Acme" "acme" none "w1" false).1
    ⟨"w1", "acme", "Acme", none, "u1"⟩
    (createWorkspace { users := [⟨"u1", "a@x.com", "h", none, none⟩] }
      "u1" "Acme" "acme" none "w1" false).2 rfl
  exact h

/-! ## Claim C9 — webhook signature verification -/

/-- Appending to a fixed prefix preserves string inequality (used for the
`sha256=` prefix of digests). -/
lemma string_append_ne_of_ne (p : String) {x y : String} (h : x ≠ y) :
    p ++ x ≠ p ++ y := by
  intro he
  apply h
  have hd := congrArg String.data he
  simp only [String.data_append] at hd
  exact String.ext (List.append_cancel_left hd)

/-- C9: with a non-empty secret `s` and body `b`, verification accepts the
header `sha256=HMAC-SHA256(s,b)`; it rejects every other header value
(mutations included, whether or not they change the length); it rejects
every mutated body whose HMAC differs from the original's (HMAC is an
abstract parameter, so collision-freeness of the mutation is a
hypothesis); and when neither a per-project nor a process-wide secret is
configured, the resolved secret is empty and verification accepts
unconditionally with the skip reason. -/
theorem verifyGitHubSignature_correct (hmacHex : String → String → String)
    (s b : String) (hs : s ≠ "") :
    (verifyGitHubSignature hmacHex s b (some ("sha256=" ++ hmacHex s b)) =
      ⟨true, "Verified"⟩)
    ∧ (∀ h', h' ≠ "sha256=" ++ hmacHex s b →
        (verifyGitHubSignature hmacHex s b (some h')).ok = false)
    ∧ (∀ b', hmacHex s b' ≠ hmacHex s b →
        (verifyGitHubSignature hmacHex s b'
          (some ("sha256=" ++ hmacHex s b))).ok = false)
    ∧ (∀ (ls es : Option String) (b₀ : String) (sig : Option String),
        truthy ls = none → truthy es = none →
        verifyGitHubSignature hmacHex (resolveWebhookSecret ls es) b₀ sig =
          ⟨true, "No secret configured - skipping verification (dev stub)"⟩) := by
  have hsb : (s == "") = false := beq_eq_false_iff_ne.mpr hs
  refine ⟨?_, ?_, ?_, ?_⟩
  · unfold verifyGitHubSignature
    rw [hsb]
    simp
  · intro h' hne
    unfold verifyGitHubSignature
    rw [hsb]
    simp only [Bool.false_eq_true, if_false, Option.getD_some]
    by_cases hl : ("sha256=" ++ hmacHex s b).length ≠ h'.length
    · rw [if_pos hl]
    · rw [if_neg hl, if_neg (by
        simpa using fun hcontra => hne hcontra.symm)]
  · intro b' hne
    unfold verifyGitHubSignature
    rw [hsb]
    simp only [Bool.false_eq_true, if_false, Option.getD_some]
    have hdig : "sha256=" ++ hmacHex s b' ≠ "sha256=" ++ hmacHex s b :=
      string_append_ne_of_ne _ hne
    by_cases hl : ("sha256=" ++ hmacHex s b').length ≠
        ("sha256=" ++ hmacHex s b).length
    · rw [if_pos hl]
    · rw [if_neg hl, if_neg (by simpa using fun hcontra => hdig (beq_iff_eq.mp hcontra))]
  · intro ls es b₀ sig hls hes
    unfold resolveWebhookSecret
    rw [hls, hes]
    rfl

/-- Stand-in HMAC used only to instantiate the abstract parameter of the
C9 witness at a concrete, computable value. -/
def hmacStub (s b : String) : String := s ++ "/" ++ b

/-- C9 witness: with secret "k" and body "x", the correct header is
accepted, a one-byte header mutation is rejected, a body mutation with a
differing MAC is rejected, and the unconfigured-secret path accepts with
the skip reason. -/
theorem verifyGitHubSignature_correct_witness :
    (verifyGitHubSignature hmacStub "k" "x" (some ("sha256=" ++ hmacStub "k" "x")) =
      ⟨true, "Verified"⟩)
    ∧ (verifyGitHubSignature hmacStub "k" "x" (some "sha256=k/y")).ok = false
    ∧ (verifyGitHubSignature hmacStub "k" "y"
        (some ("sha256=" ++ hmacStub "k" "x"))).ok = false
    ∧ (verifyGitHubSignature hmacStub (resolveWebhookSecret none none) "x" none =
        ⟨true, "No secret configured - skipping verification (dev stub)"⟩) := by
  have h := verifyGitHubSignature_correct hmacStub "k" "x" (by decide)
  exact ⟨h.1, h.2.1 "sha256=k/y" (by decide), h.2.2.1 "y" (by decide),
    h.2.2.2 none none "x" none rfl rfl⟩

/-! ## Claim C4 — OWNER-involving role transitions -/

/-- Store for C4: `u-alice` is a workspace ADMIN (not OWNER), `u-bob` an
existing DEVELOPER member with email `bob@x.com`. -/
def dbInvite : DB :=
  { users := [⟨"u-alice", "alice@x.com", "h", none, none⟩,
              ⟨"u-bob", "bob@x.com", "h", none, none⟩],
    workspaces := [⟨"w1", "acme", "Acme", none, "u-owner"⟩],
    memberships := [⟨"u-alice", "w1", .ADMIN⟩, ⟨"u-bob", "w1", .DEVELOPER⟩] }

/-- C4 divergence, evaluated: `setWorkspaceRole` does refuse an ADMIN
assigning OWNER (403), but `inviteMember` lets the same ADMIN set the
same user's role to OWNER via its upsert — the claim's "no path by which
a non-OWNER acting principal can set a membership's role to OWNER" is
violated by the code. -/
theorem inviteMember_admin_assigns_owner :
    setWorkspaceRole dbInvite "u-alice" "w1" "u-bob" .OWNER =
      .error ⟨403, "Forbidden: only OWNER can change OWNER roles"⟩
    ∧ inviteMember dbInvite "u-alice" "w1" "bob@x.com" .OWNER =
      .ok (.added ⟨"u-bob", "w1", .OWNER⟩,
        { dbInvite with
          memberships := [⟨"u-alice", "w1", .ADMIN⟩, ⟨"u-bob", "w1", .OWNER⟩] }) := by
  exact ⟨rfl, rfl⟩

/-! ## Claim C5 — cross-tenant references -/

/-- Store for C5: `u-m` is a MAINTAINER of workspace `wA`; project `pB`
(with CI run `r1`) belongs to the other workspace `wB`, where `u-m` has
no membership at all. -/
def dbCross : DB :=
  { users := [⟨"u-m", "m@x.com", "h", none, none⟩],
    workspaces := [⟨"wA", "a", "A", none, "u-m"⟩,
                   ⟨"wB", "b", "B", none, "u-o"⟩],
    memberships := [⟨"u-m", "wA", .MAINTAINER⟩],
    projects := [⟨"pB", "wB", "Foreign", "foreign", none, none⟩],
    ciRuns := [⟨"r1", "pB", none, .PASSED, none, none, none, 100, none, none⟩] }

/-- C5 divergence, evaluated: `getProject` correctly reports NOT_FOUND for
the cross-tenant project, but `updateProject` (update keyed by project id
only) succeeds and mutates the other workspace's project, and
`getLatestCiStatus` (no project-in-workspace check) returns the other
workspace's CI run instead of NOT_FOUND. -/
theorem crossTenant_update_and_latest_leak :
    getProject dbCross "u-m" "wA" "pB" = .error ⟨404, "Project not found"⟩
    ∧ updateProject dbCross "u-m" "wA" "pB" { name := some "pwned" } =
      .ok (⟨"pB", "wB", "pwned", "foreign", none, none⟩,
        { dbCross with
          projects := [⟨"pB", "wB", "pwned", "foreign", none, none⟩] })
    ∧ getLatestCiStatus dbCross "u-m" "wA" "pB" none none =
      .ok (some ⟨"r1", "pB", none, .PASSED, none, none, none, 100, none, none⟩) := by
  exact ⟨rfl, rfl, rfl⟩

/-! ## Claim C10 — `listCiRuns` page-size clamp -/

/-- Prisma `take t` returns at most `|t|` rows. -/
lemma jsTake_length_le {α : Type} (t : Int) (xs : List α) :
    (jsTake t xs).length ≤ t.natAbs := by
  unfold jsTake
  split_ifs with h
  · rw [List.length_take]
    omega
  · rw [List.length_drop]
    omega

/-- Store for C10: a VIEWER member, one project, one CI run. -/
def dbRuns : DB :=
  { users := [⟨"u-v", "v@x.com", "h", none, none⟩],
    workspaces := [⟨"w1", "acme", "Acme", none, "u-v"⟩],
    memberships := [⟨"u-v", "w1", .VIEWER⟩],
    projects := [⟨"p1", "w1", "P", "p", none, none⟩],
    ciRuns := [⟨"r1", "p1", none, .PASSED, none, none, none, 100, none, none⟩] }

/-- C10 counterexample: with `limit = 0` (a present, numeric value), the
claim's bound `min(limit, 200) = 0` is exceeded — `Number(0) || 50` is
falsy in JS, so the code takes 50 and returns the single stored run. -/
theorem listCiRuns_limit_zero_counterexample :
    listCiRuns dbRuns "u-v" "w1" "p1" { limit := .num 0 } =
      .ok (1, [⟨"r1", "p1", none, .PASSED, none, none, none, 100, none, none⟩])
    ∧ ¬ ((1 : Int) ≤ min 0 200) :=
  ⟨rfl, by decide⟩

/-- C10 amended: the number of runs returned by `listCiRuns` is at most
`|min(Number(limit) || 50, 200)|`, where `Number(limit) || 50` falls back
to 50 when `limit` is absent, non-numeric, or zero (JS falsiness); in
particular, for a positive numeric limit the page is clamped to
`min(limit, 200)` and the default page size is 50. -/
theorem listCiRuns_page_bounded (db : DB)
    (userId workspaceId projectId : String) (q : CiRunQuery)
    (total : Nat) (runs : List CiRun)
    (h : listCiRuns db userId workspaceId projectId q = .ok (total, runs)) :
    runs.length ≤ (effectiveTake q.limit).natAbs := by
  unfold listCiRuns at h
  cases hreq : requireWorkspaceRole db userId workspaceId .VIEWER with
  | error e =>
    rw [hreq] at h
    simp [bind, Except.bind] at h
  | ok m =>
    rw [hreq] at h
    simp only [bind, Except.bind] at h
    cases hf : db.projects.find?
        (fun p => p.id == projectId && p.workspaceId == workspaceId) with
    | none =>
      rw [hf] at h
      simp at h
    | some pr =>
      rw [hf] at h
      simp only [Except.ok.injEq, Prod.mk.injEq] at h
      obtain ⟨-, hruns⟩ := h
      rw [← hruns]
      exact jsTake_length_le _ _

/-- C10 amended witness: on the concrete store, the single returned run
respects the `|effectiveTake|` bound (50 for `limit = 0`). -/
theorem listCiRuns_page_bounded_witness :
    ([⟨"r1", "p1", none, .PASSED, none, none, none, 100, none, none⟩] :
      List CiRun).length ≤ (effectiveTake (.num 0)).natAbs :=
  listCiRuns_page_bounded dbRuns "u-v" "w1" "p1" { limit := .num 0 } 1
    [⟨"r1", "p1", none, .PASSED, none, none, none, 100, none, none⟩] rfl

/-! ## Claim C7 — signup token subject and persisted session -/

/-- C7: for a valid signup (email not yet registered, email and password
present, and the store-generated fresh user id unused by any existing
session), signup succeeds, the returned access token's subject is the new
user's id, and exactly one session is persisted for that user — its
stored `refreshTokenHash` being the hash of the plaintext refresh token
returned to the caller. -/
theorem signup_token_and_session (hashT bhash : String → String) (db : DB)
    (now : Nat) (fr : Fresh) (email password : String)
    (name : Option String) (ctx : DeviceCtx)
    (hemail : email ≠ "") (hpass : password ≠ "")
    (hnoUser : ∀ u ∈ db.users, u.email ≠ email)
    (hnoSess : ∀ s ∈ db.sessions, s.userId ≠ fr.newUserId) :
    ∃ res db' snew,
      signup hashT bhash db now fr email password name ctx = (.ok res, db')
      ∧ res.accessToken.sub = fr.newUserId
      ∧ db'.sessions.filter (fun s => s.userId == fr.newUserId) = [snew]
      ∧ snew.refreshTokenHash = hashT res.refreshToken := by
  have hfind : db.users.find? (fun u => u.email == email) = none :=
    List.find?_eq_none.mpr (fun u hu => by simpa using hnoUser u hu)
  refine ⟨{ userId := fr.newUserId, email := email,
            accessToken := signAccessToken
              ⟨fr.newUserId, email, bhash password, truthy name, none⟩,
            refreshToken := fr.refreshToken, sessionId := fr.newSessionId },
          { db with
            users := db.users ++
              [⟨fr.newUserId, email, bhash password, truthy name, none⟩],
            sessions := db.sessions ++
              [⟨fr.newSessionId, fr.newUserId, fr.sessionToken,
                hashT fr.refreshToken, truthy ctx.userAgent,
                truthy ctx.ipAddress,
                daysFromNow now REFRESH_TOKEN_TTL_DAYS, none⟩] },
          ⟨fr.newSessionId, fr.newUserId, fr.sessionToken,
            hashT fr.refreshToken, truthy ctx.userAgent, truthy ctx.ipAddress,
            daysFromNow now REFRESH_TOKEN_TTL_DAYS, none⟩,
          ?_, rfl, ?_, rfl⟩
  · unfold signup createSessionForUser
    rw [if_neg (by simp [hemail, hpass]), hfind]
  · show (db.sessions ++ _).filter _ = _
    rw [List.filter_append]
    have h1 : db.sessions.filter (fun s => s.userId == fr.newUserId) = [] := by
      rw [List.filter_eq_nil_iff]
      intro s hs
      simpa using hnoSess s hs
    rw [h1]
    simp [List.filter]

/-- C7 witness: a concrete signup on an empty store; the one persisted
session carries the hash of the returned refresh token, and the access
token's subject is the fresh user id. -/
theorem signup_token_and_session_witness :
    ∃ res db' snew,
      signup (fun t => "sha:" ++ t) (fun p => "bc:" ++ p) {} 1000
        ⟨"u-new", "sess-1", "st-1", "rt-1"⟩ "a@x.com" "pw" none {} =
        (.ok res, db')
      ∧ res.accessToken.sub = "u-new"
      ∧ db'.sessions.filter (fun s => s.userId == "u-new") = [snew]
      ∧ snew.refreshTokenHash = (fun t => "sha:" ++ t) res.refreshToken := by
  exact signup_token_and_session (fun t => "sha:" ++ t) (fun p => "bc:" ++ p)
    {} 1000 ⟨"u-new", "sess-1", "st-1", "rt-1"⟩ "a@x.com" "pw" none {}
    (by decide) (by decide)
    (by intro u hu; simp at hu) (by intro s hs; simp at hs)

/-! ## Claim C2 — refresh-token rotation is single-use -/

/-- The session produced by the rotation step of `refresh`. -/
def rotateSession (hashT : String → String) (now : Nat) (fr : Fresh)
    (ctx : DeviceCtx) (x : Session) : Session :=
  { x with
    refreshTokenHash := hashT fr.refreshToken,
    expiresAt := daysFromNow now REFRESH_TOKEN_TTL_DAYS,
    userAgent := jsOrOpt ctx.userAgent x.userAgent,
    ipAddress := jsOrOpt ctx.ipAddress x.ipAddress }

/-- C2: a refresh call whose token's hash matches a non-revoked,
non-expired session succeeds and replaces that session's stored hash with
the hash of the freshly generated token; afterwards no active session
stores the old hash, and a second refresh call presenting the original
token fails 401 UNAUTHENTICATED. Side conditions make the store and
crypto assumptions explicit: session ids are unique, the matching hash
identifies a single active session, the fresh token's hash differs from
the old one, the session's user exists, and time does not go backwards
between the two calls. -/
theorem refresh_rotates_single_use (hashT : String → String) (db : DB)
    (now now2 : Nat) (fr fr2 : Fresh) (tok : String) (s : Session)
    (ctx ctx2 : DeviceCtx)
    (htok : tok ≠ "")
    (hmem : s ∈ db.sessions)
    (hhash : s.refreshTokenHash = hashT tok)
    (hrev : s.revokedAt = none)
    (hexp : now < s.expiresAt)
    (huniq : ∀ s' ∈ db.sessions, s'.revokedAt = none → now < s'.expiresAt →
        s'.refreshTokenHash = hashT tok → s'.id = s.id)
    (hnodup : (db.sessions.map Session.id).Nodup)
    (hfresh : hashT fr.refreshToken ≠ hashT tok)
    (huser : ∃ u ∈ db.users, u.id = s.userId)
    (hnow : now ≤ now2) :
    ∃ res db',
      refresh hashT db now fr none tok ctx = (.ok res, db')
      ∧ res.refreshToken = fr.refreshToken
      ∧ res.sessionId = s.id
      ∧ (∃ s' ∈ db'.sessions, s'.id = s.id
          ∧ s'.refreshTokenHash = hashT fr.refreshToken)
      ∧ (∀ s' ∈ db'.sessions, s'.revokedAt = none → now2 < s'.expiresAt →
          s'.refreshTokenHash ≠ hashT tok)
      ∧ (refresh hashT db' now2 fr2 none tok ctx2).1 =
          .error ⟨401, "Invalid or expired refresh token"⟩ := by
  have htokb : (tok == "") = false := beq_eq_false_iff_ne.mpr htok
  -- the first call's session lookup finds exactly the matching session
  have hex : ∃ x, x ∈ db.sessions
      ∧ refreshMatch now none (hashT tok) x = true :=
    ⟨s, hmem, by simp [refreshMatch, truthy, hhash, hrev, hexp]⟩
  obtain ⟨s₀, h₀⟩ := Option.isSome_iff_exists.mp (List.find?_isSome.mpr hex)
  have hp := List.find?_some h₀
  have hm₀ := List.mem_of_find?_eq_some h₀
  simp only [refreshMatch, truthy, Bool.and_eq_true, beq_iff_eq,
    decide_eq_true_eq] at hp
  have hid : s₀.id = s.id := huniq s₀ hm₀ hp.1.2 hp.2 hp.1.1.2
  have hs₀ : s₀ = s := List.inj_on_of_nodup_map hnodup hm₀ hmem hid
  rw [hs₀] at h₀
  -- the session's user is found
  obtain ⟨u, hu, hui⟩ := huser
  have huex : ∃ x, x ∈ db.users ∧ (x.id == s.userId) = true :=
    ⟨u, hu, by simp [hui]⟩
  obtain ⟨u₀, hu₀⟩ := Option.isSome_iff_exists.mp (List.find?_isSome.mpr huex)
  -- the first call, evaluated
  have hres : refresh hashT db now fr none tok ctx =
      (.ok { userId := u₀.id, email := u₀.email,
             accessToken := signAccessToken u₀,
             refreshToken := fr.refreshToken, sessionId := s.id },
       { db with sessions := db.sessions.map (fun x =>
          if x.id == s.id then rotateSession hashT now fr ctx x else x) }) := by
    unfold refresh rotateSession
    rw [if_neg (by simp [htok]), h₀]
    simp only [hu₀]
  -- after the call, no active session stores the old hash
  have hscrub : ∀ s' ∈ (db.sessions.map (fun x =>
      if x.id == s.id then rotateSession hashT now fr ctx x else x)),
      s'.revokedAt = none → now2 < s'.expiresAt →
      s'.refreshTokenHash ≠ hashT tok := by
    intro s' hs' hrev' hexp' hcontra
    obtain ⟨x, hx, hfx⟩ := List.mem_map.mp hs'
    by_cases hxid : (x.id == s.id) = true
    · rw [if_pos hxid] at hfx
      rw [← hfx] at hcontra
      exact hfresh hcontra
    · rw [if_neg hxid] at hfx
      subst hfx
      exact hxid (by simp [huniq x hx hrev' (lt_of_le_of_lt hnow hexp') hcontra])
  refine ⟨_, _, hres, rfl, rfl, ?_, hscrub, ?_⟩
  · refine ⟨rotateSession hashT now fr ctx s, ?_, rfl, rfl⟩
    have := List.mem_map_of_mem (fun x =>
      if x.id == s.id then rotateSession hashT now fr ctx x else x) hmem
    simpa using this
  · -- the second call's lookup comes up empty, hence 401
    have hnone : (db.sessions.map (fun x =>
        if x.id == s.id then rotateSession hashT now fr ctx x else x)).find?
        (refreshMatch now2 none (hashT tok)) = none := by
      rw [List.find?_eq_none]
      intro x hx hmatch
      simp only [refreshMatch, truthy, Bool.and_eq_true, beq_iff_eq,
        decide_eq_true_eq] at hmatch
      exact hscrub x hx hmatch.1.2 hmatch.2 hmatch.1.1.2
    unfold refresh
    rw [if_neg (by simp [htok]), hnone]

/-- C2 witness: one active session holding the hash of token "tok"; the
refresh call succeeds and a second call with "tok" on the resulting store
fails 401. -/
theorem refresh_rotates_single_use_witness :
    ∃ res db',
      refresh (fun t => "sha:" ++ t)
        { users := [⟨"u1", "a@x.com", "h", none, none⟩],
          sessions := [⟨"s1", "u1", "st1", "sha:tok", none, none, 5000, none⟩] }
        1000 ⟨"", "", "", "rt-new"⟩ none "tok" {} = (.ok res, db')
      ∧ res.refreshToken = "rt-new"
      ∧ res.sessionId = "s1"
      ∧ (∃ s' ∈ db'.sessions, s'.id = "s1"
          ∧ s'.refreshTokenHash = (fun t => "sha:" ++ t) "rt-new")
      ∧ (∀ s' ∈ db'.sessions, s'.revokedAt = none → 2000 < s'.expiresAt →
          s'.refreshTokenHash ≠ (fun t => "sha:" ++ t) "tok")
      ∧ (refresh (fun t => "sha:" ++ t) db' 2000 ⟨"", "", "", "rt-new2"⟩
          none "tok" {}).1 =
          .error ⟨401, "Invalid or expired refresh token"⟩ := by
  have h := refresh_rotates_single_use (fun t => "sha:" ++ t)
    { users := [⟨"u1", "a@x.com", "h", none, none⟩],
      sessions := [⟨"s1", "u1", "st1", "sha:tok", none, none, 5000, none⟩] }
    1000 2000 ⟨"", "", "", "rt-new"⟩ ⟨"", "", "", "rt-new2"⟩ "tok"
    ⟨"s1", "u1", "st1", "sha:tok", none, none, 5000, none⟩ {} {}
    (by decide) (by simp) rfl rfl (by decide)
    (by intro s' hs' _ _ _; simp at hs'; simp [hs'])
    (by simp) (by decide)
    ⟨⟨"u1", "a@x.com", "h", none, none⟩, by simp, rfl⟩ (by decide)
  obtain ⟨res, db', h1, h2, h3, h4, h5, h6⟩ := h
  exact ⟨res, db', h1, h2, h3, h4, h5, h6⟩

end LedgerFlow
